import Mathlib

/-!
Shallow embedding of the durable task store, ID allocator, schema migrator,
recurrence calculator and schedulers of `src/bot.py` (Utilabot), together
with theorems settling the frozen claims C1-C10.

Conventions of the embedding:
* Naive `datetime` values are modelled as integer seconds on a civil time
  line (seconds since 1970-01-01 00:00:00 of the same wall clock); the code
  zeroes `second`/`microsecond` before comparing, so second granularity is
  exact.
* A `tzinfo` object is modelled by its wall-clock offset function
  `off : Int → Int` (seconds east of UTC as a function of the local wall
  time); the UTC instant of an aware local time `w` is `w - off w`, which
  is what Python's aware-datetime comparison and `astimezone` use.
* SQLite tables are modelled as lists of typed rows; `DELETE ... WHERE`
  becomes `List.filter`, `rowcount > 0` becomes `List.any`, and the
  `PRIMARY KEY(user_id, id)` constraint becomes a `Nodup` hypothesis on
  the projected keys.
* Caught-and-logged delivery exceptions are modelled by quantifying over an
  arbitrary delivery-outcome value: the embedded control flow does not
  depend on it wherever the Python control flow does not.
-/

namespace Utilabot

/-! ## Civil calendar arithmetic (model of Python `datetime`)

`daysFromCivil`/`civilFromDays` are the standard proleptic-Gregorian
conversions (days relative to 1970-01-01); they model the calendar
arithmetic that `datetime`, `timedelta` and `.weekday()` perform in
`src/bot.py`. -/

/-- Days since 1970-01-01 of the civil date `y-m-d` (proleptic Gregorian). -/
def daysFromCivil (y m d : Int) : Int :=
  let y' : Int := if m ≤ 2 then y - 1 else y
  let era : Int := y' / 400
  let yoe : Int := y' - era * 400
  let mp : Int := if 2 < m then m - 3 else m + 9
  let doy : Int := (153 * mp + 2) / 5 + d - 1
  let doe : Int := yoe * 365 + yoe / 4 - yoe / 100 + doy
  era * 146097 + doe - 719468

/-- Civil date `(y, m, d)` of a day count relative to 1970-01-01. -/
def civilFromDays (z : Int) : Int × Int × Int :=
  let z' : Int := z + 719468
  let era : Int := z' / 146097
  let doe : Int := z' - era * 146097
  let yoe : Int := (doe - doe / 1460 + doe / 36524 - doe / 146096) / 365
  let y : Int := yoe + era * 400
  let doy : Int := doe - (365 * yoe + yoe / 4 - yoe / 100)
  let mp : Int := (5 * doy + 2) / 153
  let d : Int := doy - (153 * mp + 2) / 5 + 1
  let m : Int := if mp < 10 then mp + 3 else mp - 9
  (if m ≤ 2 then y + 1 else y, m, d)

/-- The naive local datetime `y-m-d hh:mi:00`, as seconds on the civil line. -/
def mkDT (y m d hh mi : Int) : Int :=
  daysFromCivil y m d * 86400 + hh * 3600 + mi * 60

/-- Midnight of the day containing the civil-line second `t`
(`datetime.replace` with the time fields zeroed). -/
def dayStart (t : Int) : Int := (t / 86400) * 86400

/-- `datetime.year` of a civil-line second. -/
def yearOf (t : Int) : Int := (civilFromDays (t / 86400)).1

/-- Python `datetime.weekday()` (Monday = 0) of a civil-line second;
1970-01-01 was a Thursday. -/
def weekdayOf (t : Int) : Int := ((t / 86400) + 3) % 7

/-! ## Timezones

An aware datetime with wall time `w` under an offset function `off`
denotes the UTC instant `w - off w`. -/

/-- UTC instant of the aware local wall-clock second `w` under the offset
function `off` (`datetime.astimezone(timezone.utc)`). -/
def instant (off : Int → Int) (w : Int) : Int := w - off w

/-- `_chicago_tz_for` fallback branch (`src/bot.py` lines 3136-3142): the
hardcoded US DST rule. Given the naive datetime the tz is selected for, it
yields UTC-5 between the second Sunday of March (midnight) and the first
Sunday of November (midnight) of that datetime's year, else UTC-6. The
returned Python object is a *fixed-offset* `timezone`, so the offset this
function computes applies to every wall time the caller attaches it to;
`chicagoFallbackOffsetAt dtNaive` is that fixed offset in seconds. -/
def chicagoFallbackOffsetAt (dtNaive : Int) : Int :=
  let y := yearOf dtNaive
  let march8 := daysFromCivil y 3 8 * 86400
  let secondSunMarch := march8 + ((6 - weekdayOf march8) % 7) * 86400
  let nov1 := daysFromCivil y 11 1 * 86400
  let firstSunNov := nov1 + ((6 - weekdayOf nov1) % 7) * 86400
  if secondSunMarch ≤ dtNaive ∧ dtNaive < firstSunNov then -5 * 3600 else -6 * 3600

/-- Modelled from the spec: `_chicago_tz_for`'s primary branch returns
`ZoneInfo("America/Chicago")`, whose data comes from the IANA timezone
database, which is not part of this repository. Per the IANA rules, during
2025 America/Chicago is on CDT (UTC-5) from 2025-03-09 02:00 local wall
time until 2025-11-02 02:00 local wall time, and on CST (UTC-6) otherwise;
this function is the resulting wall-time → offset map for wall times inside
2025 (fold 0 at the transitions). -/
def chicagoZoneinfoOffset2025 (w : Int) : Int :=
  if mkDT 2025 3 9 2 0 ≤ w ∧ w < mkDT 2025 11 2 2 0 then -5 * 3600 else -6 * 3600

/-! ## Recurrence calculator and scheduler reschedule rules -/

/-- `_next_local_run` (`src/bot.py` lines 960-964): candidate is today at
`hh:mi` (seconds zeroed); if the candidate is not strictly after `nowLocal`
it is advanced by one day (`"daily"`) or seven days (any other cadence). -/
def nextLocalRun (nowLocal hh mi : Int) (cadence : String) : Int :=
  let target := dayStart nowLocal + hh * 3600 + mi * 60
  if target ≤ nowLocal then
    target + (if cadence = "daily" then 1 else 7) * 86400
  else
    target

/-- The daily reschedule computed inside `weather_scheduler`
(`src/bot.py` lines 1166-1169): candidate today at `hh:mi`; add one day
when the candidate is not strictly after now. -/
def schedDailyNextLocal (nowLocal hh mi : Int) : Int :=
  let nextLocal := dayStart nowLocal + hh * 3600 + mi * 60
  if nextLocal ≤ nowLocal then nextLocal + 86400 else nextLocal

/-- The weekly reschedule computed inside `weather_scheduler`
(`src/bot.py` lines 1185-1190): candidate today at `hh:mi`; the source's
`if`/`else` adds seven days on *both* branches. -/
def schedWeeklyNextLocal (nowLocal hh mi : Int) : Int :=
  let nextLocal := dayStart nowLocal + hh * 3600 + mi * 60
  if nextLocal ≤ nowLocal then nextLocal + 7 * 86400 else nextLocal + 7 * 86400

/-- The `next_run_utc` persisted by `weather_subscribe`
(`src/bot.py` lines 1063-1073): `_next_local_run` at the current local
time, converted to UTC. -/
def subscribeNextRunUtc (off : Int → Int) (nowLocal hh mi : Int) (cadence : String) : Int :=
  instant off (nextLocalRun nowLocal hh mi cadence)

/-! ## Store tables

Each SQLite table is a list of typed rows.  `PRIMARY KEY(user_id, id)`
becomes a `Nodup` hypothesis on the `(userId, id)` projections where a
theorem needs it. -/

/-- A row of the `notes` table. -/
structure NoteRow where
  userId : Int
  id : Int
  text : String
  deriving DecidableEq

/-- A row of the `reminders` table as the schedulers consume it:
`due_utc` is stored as an ISO string and parsed with
`datetime.fromisoformat` before use; here it is carried already parsed
(UTC seconds). -/
structure Reminder where
  userId : Int
  id : Int
  channelId : Option Int
  dm : Bool
  text : String
  dueUtc : Int
  deriving DecidableEq

/-- A raw row of the `weather_subs` table (`next_run_utc` is a nullable
TEXT column). -/
structure WSubRow where
  userId : Int
  id : Int
  zip : String
  cadence : String
  hh : Int
  mi : Int
  weeklyDays : Int
  nextRunUtc : Option String
  deriving DecidableEq

/-- A `weather_subs` record as `weather_scheduler` consumes it, with
`next_run_utc` already parsed to UTC seconds. -/
structure WSub where
  userId : Int
  id : Int
  zip : String
  cadence : String
  hh : Int
  mi : Int
  weeklyDays : Int
  nextRunUtc : Int
  deriving DecidableEq

/-- The dict `list_weather_subs` builds per row
(`src/bot.py` lines 545-549): every column is present; the `int(...)`
coercions are identity on the typed columns; `next_run_utc` is passed
through verbatim. -/
def list_weather_subs (rows : List WSubRow) (uid : Option Int) : List WSubRow :=
  let sel : List WSubRow :=
    match uid with
    | none => rows
    | some u => rows.filter (fun r => r.userId == u)
  sel.map
    (fun r => { userId := r.userId, id := r.id, zip := r.zip, cadence := r.cadence,
                hh := r.hh, mi := r.mi, weeklyDays := r.weeklyDays,
                nextRunUtc := r.nextRunUtc })

/-- A raw row of the `reminders` table (`due_utc` TEXT, `dm` INTEGER). -/
structure RemRow where
  userId : Int
  id : Int
  channelId : Option Int
  dm : Int
  text : String
  dueUtc : String
  deriving DecidableEq

/-- The dict `list_reminders` builds per row (`src/bot.py` lines 636-640):
all columns present, `dm` coerced to bool, `channel_id` passed through
(possibly null), `due_utc` passed through verbatim. -/
structure RemDict where
  userId : Int
  id : Int
  channelId : Option Int
  dm : Bool
  text : String
  dueUtc : String
  deriving DecidableEq

/-- `Store.list_reminders` (`src/bot.py` lines 630-640). -/
def list_reminders (rows : List RemRow) (uid : Option Int) : List RemDict :=
  let sel : List RemRow :=
    match uid with
    | none => rows
    | some u => rows.filter (fun r => r.userId == u)
  sel.map
    (fun r => { userId := r.userId, id := r.id, channelId := r.channelId,
                dm := r.dm != (0 : Int), text := r.text, dueUtc := r.dueUtc })

/-! ## ID allocator -/

/-- The scan loop of `Store._lowest_free_id_for_user`
(`src/bot.py` lines 396-402): walk the ascending id list; on `u == i`
advance `i`; on `u > i` stop; otherwise skip. -/
def lowestFreeLoop : List Int → Int → Int
  | [], i => i
  | u :: rest, i =>
      if u = i then lowestFreeLoop rest (i + 1)
      else if i < u then i
      else lowestFreeLoop rest i

/-- `Store._lowest_free_id_for_user` (`src/bot.py` lines 393-402) applied
to a table projected to `(user_id, id)` pairs: the SQL
`SELECT id ... WHERE user_id=? ORDER BY id` is the sorted id list of the
owner's rows, then the scan starts at 1. -/
def lowest_free_id_for_user (rows : List (Int × Int)) (uid : Int) : Int :=
  lowestFreeLoop
    (List.insertionSort (· ≤ ·) ((rows.filter (fun r => r.1 == uid)).map (·.2))) 1

/-- `Store.add_note` (`src/bot.py` lines 570-573): allocate the lowest
free per-user id and insert; returns the new table and the id. -/
def add_note (notes : List NoteRow) (uid : Int) (text : String) :
    List NoteRow × Int :=
  let nid := lowest_free_id_for_user (notes.map (fun r => (r.userId, r.id))) uid
  (notes ++ [{ userId := uid, id := nid, text := text }], nid)

/-- `Store.add_reminder` (`src/bot.py` lines 620-628): allocate the lowest
free per-user id and insert; returns the new table and the id. -/
def add_reminder (reminders : List Reminder) (uid : Int) (channelId : Option Int)
    (dm : Bool) (text : String) (dueUtc : Int) : List Reminder × Int :=
  let rid := lowest_free_id_for_user (reminders.map (fun r => (r.userId, r.id))) uid
  (reminders ++ [{ userId := uid, id := rid, channelId := channelId, dm := dm,
                   text := text, dueUtc := dueUtc }], rid)

/-- `Store.add_weather_sub` (`src/bot.py` lines 529-536): allocate the
lowest free per-user id and insert; returns the new table and the id. -/
def add_weather_sub (subs : List WSubRow) (uid : Int) (zip cadence : String)
    (hh mi weeklyDays : Int) (nextRunUtc : Option String) : List WSubRow × Int :=
  let sid := lowest_free_id_for_user (subs.map (fun r => (r.userId, r.id))) uid
  (subs ++ [{ userId := uid, id := sid, zip := zip, cadence := cadence, hh := hh,
              mi := mi, weeklyDays := weeklyDays, nextRunUtc := nextRunUtc }], sid)

/-- `Store.delete_note` (`src/bot.py` lines 579-581): `DELETE ... WHERE
user_id=? AND id=?`; returns `rowcount > 0`. -/
def delete_note (notes : List NoteRow) (uid nid : Int) : List NoteRow × Bool :=
  (notes.filter (fun r => !(r.userId == uid && r.id == nid)),
   notes.any (fun r => r.userId == uid && r.id == nid))

/-- `Store.remove_weather_sub` (`src/bot.py` lines 551-553): `DELETE FROM
weather_subs WHERE user_id=? AND id=?` with `user_id = requester_id`;
returns `rowcount > 0`. -/
def remove_weather_sub (subs : List WSubRow) (sid requesterId : Int) :
    List WSubRow × Bool :=
  (subs.filter (fun r => !(r.userId == requesterId && r.id == sid)),
   subs.any (fun r => r.userId == requesterId && r.id == sid))

/-- `Store.update_weather_sub` (`src/bot.py` lines 555-567), specialised
to the `next_run_utc` update the schedulers issue.  The method pops
`user_id` from the keyword updates with default 0 and coerces falsy
values to `None` (`int(updates.pop("user_id", 0)) or None`); when the
resulting uid is `None` it returns `False` *before any UPDATE executes*.
A caller that omits `user_id` — such as the `except` arm of
`weather_scheduler` at `src/bot.py` line 1194 — therefore writes
nothing. -/
def update_weather_sub (subs : List WSubRow) (sid : Int) (userId : Option Int)
    (nextRunUtc : Option String) : List WSubRow × Bool :=
  let uid : Option Int :=
    match userId with
    | some u => if u = 0 then none else some u
    | none => none
  match uid with
  | none => (subs, false)
  | some u =>
      (subs.map (fun r =>
        if r.userId = u ∧ r.id = sid then { r with nextRunUtc := nextRunUtc }
        else r), true)

/-- `Store.cancel_reminder` (`src/bot.py` lines 642-649): both the
`is_mod` branch and the other branch run the same
`DELETE FROM reminders WHERE user_id=? AND id=?` with
`user_id = requester_id`; returns `rowcount > 0`. -/
def cancel_reminder (reminders : List Reminder) (rid requesterId : Int)
    (isMod : Bool) : List Reminder × Bool :=
  if isMod then
    (reminders.filter (fun r => !(r.userId == requesterId && r.id == rid)),
     reminders.any (fun r => r.userId == requesterId && r.id == rid))
  else
    (reminders.filter (fun r => !(r.userId == requesterId && r.id == rid)),
     reminders.any (fun r => r.userId == requesterId && r.id == rid))

/-! ## Scheduler ticks -/

/-- Processing of one subscription inside a `weather_scheduler` tick
(`src/bot.py` lines 1140-1194).  If the record is due, the dispatch and
reschedule run inside a `try`: on success the cadence branch persists the
recomputed local candidate converted to UTC (the `update_weather_sub`
calls at lines 1170 and 1191 pass `user_id`, so the write executes).  On
any exception the `except` arm (line 1194) computes `now + 5 minutes` but
calls `update_weather_sub` *without* `user_id`; that call returns `False`
before any UPDATE (see `update_weather_sub`), so the stored row — in
particular its past `next_run_utc` — is left unchanged.  `dispatchOk`
abstracts whether anything in the `try` raised. -/
def weatherTickSub (off : Int → Int) (nowUtc nowLocal : Int)
    (dispatchOk : Bool) (s : WSub) : WSub :=
  if s.nextRunUtc ≤ nowUtc then
    if dispatchOk then
      { s with nextRunUtc :=
          if s.cadence = "daily" then
            instant off (schedDailyNextLocal nowLocal s.hh s.mi)
          else
            instant off (schedWeeklyNextLocal nowLocal s.hh s.mi) }
    else
      s
  else s

/-- One iteration of the `reminders_scheduler` loop body
(`src/bot.py` lines 3248-3264) over the snapshot row `r`: when due, the
delivery attempt runs inside a `try` whose exceptions are swallowed, and
then `cancel_reminder(r.id, r.user_id, is_mod=True)` deletes the row from
the store unconditionally.  The accumulator carries the evolving store and
the list of rows whose delivery was attempted. -/
def remTickStep (now : Int) (acc : List Reminder × List Reminder)
    (r : Reminder) : List Reminder × List Reminder :=
  if r.dueUtc ≤ now then
    ((cancel_reminder acc.1 r.id r.userId true).1, acc.2 ++ [r])
  else acc

/-- A full `reminders_scheduler` tick (`src/bot.py` lines 3243-3266):
iterate the `list_reminders(None)` snapshot over the store.  Returns the
store after the tick and the list of reminders whose delivery was
attempted (each attempt's outcome is irrelevant to the control flow). -/
def remindersTick (now : Int) (store : List Reminder) :
    List Reminder × List Reminder :=
  store.foldl (remTickStep now) (store, [])

/-! ## JSON → SQLite migration (`Store._maybe_migrate_from_json`)

The legacy JSON file is modelled post-`_ensure_shape`: every section is
present with its defaulted shape (that is exactly what `_ensure_shape`
guarantees before the inserts run).  `json.load` failure is modelled by
the `jsonParses` flag; `os.replace` success renames the file away, which
is modelled by clearing `jsonExists`. -/

/-- A legacy reminder dict value. -/
structure LegacyReminder where
  userId : Int
  channelId : Option Int
  dm : Bool
  text : String
  dueUtc : String
  deriving DecidableEq

/-- A legacy weather-subscription dict value. -/
structure LegacySub where
  userId : Int
  zip : String
  cadence : String
  hh : Int
  mi : Int
  weeklyDays : Int
  nextRunUtc : Option String
  deriving DecidableEq

/-- The legacy JSON dataset after `_ensure_shape`
(`src/bot.py` lines 217-228): every section present. -/
structure LegacyData where
  wallets : List (Int × Int)
  inventory : List (Int × List (String × Int))
  daily : List (Int × String)
  work : List (Int × String)
  streaks : List (Int × Int × Option String)
  stats : List (Int × Int × Int × Int)
  achievements : List (Int × List String)
  autodelete : List (Int × Int)
  notes : List (Int × List String)
  pins : List (Int × String)
  polls : List (Int × String × Bool)
  reminders : List LegacyReminder
  adminAllowlist : List Int
  weatherZips : List (Int × String)
  weatherSubs : List LegacySub
  triviaToken : Option String

/-- The destination SQLite tables touched by the migration. -/
structure DB where
  wallets : List (Int × Int)
  inventory : List (Int × String × Int)
  daily : List (Int × String)
  work : List (Int × String)
  streaks : List (Int × Int × Option String)
  stats : List (Int × Int × Int × Int)
  achievements : List (Int × String)
  autodelete : List (Int × Int)
  notes : List NoteRow
  pins : List (Int × String)
  polls : List (Int × String × Int)
  reminders : List RemRow
  adminAllowlist : List Int
  weatherZips : List (Int × String)
  weatherSubs : List WSubRow
  kv : List (String × String)

/-- Append `a` to the group of key `k`, preserving dict-insertion order
(models `by_user.setdefault(uid, []).append(r)`). -/
def addToGroups {α : Type} : List (Int × List α) → Int → α → List (Int × List α)
  | [], k, a => [(k, [a])]
  | (k', as) :: rest, k, a =>
      if k = k' then (k', as ++ [a]) :: rest
      else (k', as) :: addToGroups rest k a

/-- Group a list by an integer key, dict-style. -/
def groupByKey {α : Type} (key : α → Int) (items : List α) : List (Int × List α) :=
  items.foldl (fun gs a => addToGroups gs (key a) a) []

/-- Assign ids `i, i+1, ...` down a list (`next_id = 1; ...; next_id += 1`). -/
def renumberFrom {α β : Type} (f : Int → α → β) : Int → List α → List β
  | _, [] => []
  | i, a :: rest => f i a :: renumberFrom f (i + 1) rest

/-- `INSERT OR IGNORE` of one row into a list-table. -/
def insertIgnore {α : Type} [DecidableEq α] (tbl : List α) (a : α) : List α :=
  if a ∈ tbl then tbl else tbl ++ [a]

/-- Lexicographic order on `(str(due_utc), str(text))`, the per-user sort
key for legacy reminders (`src/bot.py` line 291). -/
def remLegacyLE (a b : LegacyReminder) : Prop :=
  a.dueUtc < b.dueUtc ∨ (a.dueUtc = b.dueUtc ∧ a.text ≤ b.text)

instance : DecidableRel remLegacyLE := fun a b => by
  unfold remLegacyLE; infer_instance

/-- Lexicographic order on `(str(zip), int(hh), int(mi))`, the per-user
sort key for legacy weather subs (`src/bot.py` line 314). -/
def subLegacyLE (a b : LegacySub) : Prop :=
  a.zip < b.zip ∨ (a.zip = b.zip ∧ (a.hh < b.hh ∨ (a.hh = b.hh ∧ a.mi ≤ b.mi)))

instance : DecidableRel subLegacyLE := fun a b => by
  unfold subLegacyLE; infer_instance

/-- The insert phase of `Store._maybe_migrate_from_json`
(`src/bot.py` lines 244-325): every legacy section is written through to
its destination table; notes, reminders and weather subs are re-keyed to
per-user ids starting at 1, reminders sorted by `(due_utc, text)` and subs
by `(zip, hh, mi)` within each user. -/
def migrateInsert (d : LegacyData) (db : DB) : DB :=
  { db with
    wallets := db.wallets ++ d.wallets
    inventory := db.inventory ++
      (d.inventory.flatMap (fun p => p.2.map (fun iq => (p.1, iq.1, iq.2))))
    daily := db.daily ++ d.daily
    work := db.work ++ d.work
    streaks := db.streaks ++ d.streaks
    stats := db.stats ++ d.stats
    achievements :=
      (d.achievements.flatMap (fun p => p.2.map (fun n => (p.1, n)))).foldl
        insertIgnore db.achievements
    autodelete := db.autodelete ++ d.autodelete
    notes := db.notes ++
      (d.notes.flatMap (fun p =>
        renumberFrom (fun i t => { userId := p.1, id := i, text := t }) 1 p.2))
    pins := db.pins ++ d.pins
    polls := db.polls ++
      (d.polls.map (fun p => (p.1, p.2.1, if p.2.2 then (1 : Int) else 0)))
    reminders := db.reminders ++
      ((groupByKey (·.userId) d.reminders).flatMap (fun g =>
        renumberFrom
          (fun i r => { userId := g.1, id := i, channelId := r.channelId,
                        dm := if r.dm then 1 else 0, text := r.text,
                        dueUtc := r.dueUtc })
          1 (List.insertionSort remLegacyLE g.2)))
    adminAllowlist := d.adminAllowlist.foldl insertIgnore db.adminAllowlist
    weatherZips := db.weatherZips ++ d.weatherZips
    weatherSubs := db.weatherSubs ++
      ((groupByKey (·.userId) d.weatherSubs).flatMap (fun g =>
        renumberFrom
          (fun i s => { userId := g.1, id := i, zip := s.zip,
                        cadence := s.cadence, hh := s.hh, mi := s.mi,
                        weeklyDays := s.weeklyDays,
                        nextRunUtc := s.nextRunUtc })
          1 (List.insertionSort subLegacyLE g.2)))
    kv :=
      match d.triviaToken with
      | some tok => if tok ≠ "" then db.kv ++ [("trivia_token", tok)] else db.kv
      | none => db.kv }

/-- The state the migration operates on: whether the legacy file still
exists at `json_path`, whether it parses, its (shaped) contents, and the
destination database. -/
structure MigState where
  jsonExists : Bool
  jsonParses : Bool
  jsonData : LegacyData
  db : DB

/-- `Store._maybe_migrate_from_json` (`src/bot.py` lines 231-329): return
unchanged when the legacy file is absent, when `json.load` fails, or when
the flagship `wallets` table is already populated; otherwise run the
insert phase and rename the legacy file away (`os.replace` to the
`.migrated.bak` suffix, modelled by clearing `jsonExists`). -/
def maybeMigrateFromJson (s : MigState) : MigState :=
  if s.jsonExists = false then s
  else if s.jsonParses = false then s
  else if 0 < s.db.wallets.length then s
  else { s with db := migrateInsert s.jsonData s.db, jsonExists := false }

/-! ## Helper lemmas -/

theorem dayStart_le (t : Int) : dayStart t ≤ t := by
  have h := Int.ediv_add_emod t 86400
  have h2 := Int.emod_nonneg t (by norm_num : (86400 : Int) ≠ 0)
  unfold dayStart
  omega

theorem lt_dayStart_add (t : Int) : t < dayStart t + 86400 := by
  have h := Int.ediv_add_emod t 86400
  have h3 := Int.emod_lt_of_pos t (by norm_num : (0 : Int) < 86400)
  unfold dayStart
  omega

theorem lt_nextLocalRun (now hh mi : Int) (cad : String)
    (h1 : 0 ≤ hh) (h2 : 0 ≤ mi) : now < nextLocalRun now hh mi cad := by
  have hds := dayStart_le now
  have hds' := lt_dayStart_add now
  simp only [nextLocalRun]
  split_ifs <;> omega

theorem lt_schedDailyNextLocal (now hh mi : Int)
    (h1 : 0 ≤ hh) (h2 : 0 ≤ mi) : now < schedDailyNextLocal now hh mi := by
  have hds := dayStart_le now
  have hds' := lt_dayStart_add now
  simp only [schedDailyNextLocal]
  split_ifs <;> omega

theorem lt_schedWeeklyNextLocal (now hh mi : Int)
    (h1 : 0 ≤ hh) (h2 : 0 ≤ mi) : now < schedWeeklyNextLocal now hh mi := by
  have hds := dayStart_le now
  have hds' := lt_dayStart_add now
  simp only [schedWeeklyNextLocal]
  split_ifs <;> omega

/-! ## Claim theorems -/

/-- C2: for every local now and valid hour/minute, `_next_local_run`
returns today at `hh:mi` when that instant is strictly after now and
otherwise that instant advanced by one day (daily) or seven days
(weekly); the result is always strictly after now; and a repeated call
with the same now returns the same instant. -/
theorem nextLocalRun_spec (now hh mi : Int) (cad : String)
    (h1 : 0 ≤ hh) (h2 : hh ≤ 23) (h3 : 0 ≤ mi) (h4 : mi ≤ 59) :
    (now < dayStart now + hh * 3600 + mi * 60 →
      nextLocalRun now hh mi cad = dayStart now + hh * 3600 + mi * 60)
    ∧ (dayStart now + hh * 3600 + mi * 60 ≤ now →
      nextLocalRun now hh mi cad =
        dayStart now + hh * 3600 + mi * 60 + (if cad = "daily" then 1 else 7) * 86400)
    ∧ now < nextLocalRun now hh mi cad
    ∧ nextLocalRun now hh mi cad = nextLocalRun now hh mi cad := by
  refine ⟨?_, ?_, lt_nextLocalRun now hh mi cad h1 h3, rfl⟩
  · intro h
    simp only [nextLocalRun]
    split_ifs <;> omega
  · intro h
    simp only [nextLocalRun]
    split_ifs <;> omega

/-- C2 witness: at 07:00 with target 08:00 daily the hypotheses hold and
the result is strictly after now. -/
theorem nextLocalRun_spec_witness :
    (25200 : Int) < nextLocalRun 25200 8 0 "daily" :=
  (nextLocalRun_spec 25200 8 0 "daily" (by decide) (by decide) (by decide)
    (by decide)).2.2.1

/-- C4 counterexample: a weekly subscription due at a tick whose local
time is still before today's `hh:mi` candidate is rescheduled by the code
to the candidate plus seven days, while the Recurrence Calculator's rule
(`_next_local_run`) would return the still-future candidate itself. Here
now is 2025-03-10 07:00 local (UTC-5), the subscription fires at 08:00
weekly and its stored `next_run_utc` is long past. -/
theorem weather_weekly_reschedule_counterexample :
    (weatherTickSub (fun _ => -5 * 3600) (mkDT 2025 3 10 12 0)
        (mkDT 2025 3 10 7 0) true
        { userId := 1, id := 1, zip := "60601", cadence := "weekly", hh := 8,
          mi := 0, weeklyDays := 7, nextRunUtc := 0 }).nextRunUtc
      ≠ instant (fun _ => -5 * 3600)
          (nextLocalRun (mkDT 2025 3 10 7 0) 8 0 "weekly") := by
  decide

/-- C4 amended: the daily reschedule inside `weather_scheduler` equals the
Recurrence Calculator's rule, but the weekly reschedule always adds seven
days to today's candidate — it equals the rule only when the candidate has
already passed, and exceeds the rule by exactly seven days when the
candidate is still in the future. -/
theorem reschedule_vs_rule (nowLocal hh mi : Int) :
    schedDailyNextLocal nowLocal hh mi = nextLocalRun nowLocal hh mi "daily"
    ∧ schedWeeklyNextLocal nowLocal hh mi =
        nextLocalRun nowLocal hh mi "weekly"
          + (if dayStart nowLocal + hh * 3600 + mi * 60 ≤ nowLocal then 0
             else 7 * 86400) := by
  have hd : (if ("daily" : String) = "daily" then (1 : Int) else 7) = 1 := by
    simp
  have hw : (if ("weekly" : String) = "daily" then (1 : Int) else 7) = 7 := by
    simp
  constructor
  · simp only [schedDailyNextLocal, nextLocalRun, hd]
    split_ifs <;> omega
  · simp only [schedWeeklyNextLocal, nextLocalRun, hw]
    split_ifs <;> omega

/-- C5: on the morning of the 2025 US spring DST transition, with
now = 2025-03-08 07:00 America/Chicago and hour 8, minute 0, daily
cadence, the recurrence computation returns 2025-03-08 08:00 local and
its UTC conversion uses the pre-transition UTC-6 offset (14:00 UTC);
with now = 2025-03-09 09:00 it returns 2025-03-10 08:00 local and the
conversion uses the post-transition UTC-5 offset (13:00 UTC) — under both
the zoneinfo offset map and the hardcoded fallback rule. -/
theorem dst_transition_recurrence :
    nextLocalRun (mkDT 2025 3 8 7 0) 8 0 "daily" = mkDT 2025 3 8 8 0
    ∧ chicagoFallbackOffsetAt (mkDT 2025 3 8 7 0) = -6 * 3600
    ∧ chicagoZoneinfoOffset2025 (mkDT 2025 3 8 8 0) = -6 * 3600
    ∧ instant chicagoZoneinfoOffset2025 (mkDT 2025 3 8 8 0) = mkDT 2025 3 8 14 0
    ∧ instant (fun _ => chicagoFallbackOffsetAt (mkDT 2025 3 8 7 0))
        (mkDT 2025 3 8 8 0) = mkDT 2025 3 8 14 0
    ∧ nextLocalRun (mkDT 2025 3 9 9 0) 8 0 "daily" = mkDT 2025 3 10 8 0
    ∧ chicagoFallbackOffsetAt (mkDT 2025 3 9 9 0) = -5 * 3600
    ∧ chicagoZoneinfoOffset2025 (mkDT 2025 3 10 8 0) = -5 * 3600
    ∧ instant chicagoZoneinfoOffset2025 (mkDT 2025 3 10 8 0) = mkDT 2025 3 10 13 0
    ∧ instant (fun _ => chicagoFallbackOffsetAt (mkDT 2025 3 9 9 0))
        (mkDT 2025 3 10 8 0) = mkDT 2025 3 10 13 0 := by
  decide

/-- C7: `delete_note` and `remove_weather_sub` return true exactly when a
row with the requester as owner and the given id existed (and remove it),
return false otherwise, never fail, deleting twice returns true then
false, and a delete by a non-owner leaves the other owner's record in
place. -/
theorem delete_ops_spec (notes : List NoteRow) (uid nid : Int)
    (subs : List WSubRow) (sid q : Int) :
    ((delete_note notes uid nid).2 = true ↔
      ∃ r ∈ notes, r.userId = uid ∧ r.id = nid)
    ∧ (delete_note (delete_note notes uid nid).1 uid nid).2 = false
    ∧ (∀ r ∈ notes, r.userId ≠ uid → r ∈ (delete_note notes uid nid).1)
    ∧ ((remove_weather_sub subs sid q).2 = true ↔
      ∃ r ∈ subs, r.userId = q ∧ r.id = sid)
    ∧ (remove_weather_sub (remove_weather_sub subs sid q).1 sid q).2 = false
    ∧ (∀ r ∈ subs, r.userId ≠ q → r ∈ (remove_weather_sub subs sid q).1) := by
  refine ⟨?_, ?_, ?_, ?_, ?_, ?_⟩
  · simp [delete_note, List.any_eq_true]
  · simp only [delete_note, List.any_eq_false]
    intro r hr
    simp only [List.mem_filter, Bool.not_eq_true'] at hr
    simp [hr.2]
  · intro r hr hne
    simp only [delete_note, List.mem_filter]
    exact ⟨hr, by simp [hne]⟩
  · simp [remove_weather_sub, List.any_eq_true]
  · simp only [remove_weather_sub, List.any_eq_false]
    intro r hr
    simp only [List.mem_filter, Bool.not_eq_true'] at hr
    simp [hr.2]
  · intro r hr hne
    simp only [remove_weather_sub, List.mem_filter]
    exact ⟨hr, by simp [hne]⟩

/-- C7 witness: deleting note 1 of owner 1 twice returns true then false,
and owner 2's sub survives owner 1's delete of its id. -/
theorem delete_ops_spec_witness :
    (delete_note
        (delete_note [{ userId := 1, id := 1, text := "a" }] 1 1).1 1 1).2
      = false :=
  (delete_ops_spec [{ userId := 1, id := 1, text := "a" }] 1 1 [] 1 2).2.1

/-- C10 counterexample: a requester with the elevated capability
(`is_mod = true`) asking to cancel reminder id 1 does not delete another
owner's reminder with that id: the store keeps the record and the call
returns false. -/
theorem cancel_reminder_mod_counterexample :
    cancel_reminder
        [{ userId := 1, id := 1, channelId := none, dm := false, text := "t",
           dueUtc := 0 }] 1 2 true
      = ([{ userId := 1, id := 1, channelId := none, dm := false, text := "t",
            dueUtc := 0 }], false) := by
  decide

/-- C10 amended: `cancel_reminder` targets the requester's own reminder
with the given id regardless of `is_mod` — the two branches are
identical — so it returns true exactly when the requester owns a reminder
with that id, and every other owner's reminders are left in place. -/
theorem cancel_reminder_requester_scoped (st : List Reminder)
    (rid requesterId : Int) (isMod : Bool) :
    cancel_reminder st rid requesterId isMod
      = cancel_reminder st rid requesterId true
    ∧ ((cancel_reminder st rid requesterId isMod).2 = true ↔
        ∃ r ∈ st, r.userId = requesterId ∧ r.id = rid)
    ∧ (∀ r ∈ st, r.userId ≠ requesterId →
        r ∈ (cancel_reminder st rid requesterId isMod).1) := by
  refine ⟨by cases isMod <;> rfl, ?_, ?_⟩
  · cases isMod <;> simp [cancel_reminder, List.any_eq_true]
  · intro r hr hne
    cases isMod <;> simp_all [cancel_reminder, List.mem_filter]

/-- C10 amended witness: the owner's own cancel succeeds. -/
theorem cancel_reminder_requester_scoped_witness :
    (cancel_reminder
        [{ userId := 1, id := 1, channelId := none, dm := false, text := "t",
           dueUtc := 0 }] 1 1 false).2 = true :=
  (cancel_reminder_requester_scoped
      [{ userId := 1, id := 1, channelId := none, dm := false, text := "t",
         dueUtc := 0 }] 1 1 false).2.1.mpr
    ⟨{ userId := 1, id := 1, channelId := none, dm := false, text := "t",
       dueUtc := 0 }, by simp⟩

/-- C9 counterexample: a persisted weather subscription whose
`next_run_utc` is NULL is returned by `list_weather_subs` with
`next_run_utc` still null — the field is passed through, not defaulted,
contradicting the claim that every returned field is non-null. -/
theorem list_weather_subs_null_counterexample :
    list_weather_subs
        [{ userId := 1, id := 1, zip := "60601", cadence := "daily", hh := 8,
           mi := 0, weeklyDays := 7, nextRunUtc := none }] none
      = [{ userId := 1, id := 1, zip := "60601", cadence := "daily", hh := 8,
           mi := 0, weeklyDays := 7, nextRunUtc := none }] := by
  decide

/-- C9 amended: `list_weather_subs` and `list_reminders` are total (they
cannot raise on any persisted dataset expressible in the schema) and
return every schema field with a well-typed value, but nullable columns
are passed through as stored: a null `next_run_utc` (and a null reminder
`channel_id`) is returned as null, not defaulted. -/
theorem list_ops_total_passthrough (subs : List WSubRow) (rows : List RemRow) :
    (list_weather_subs subs none).length = subs.length
    ∧ (∀ rec ∈ list_weather_subs subs none, ∃ row ∈ subs,
        rec = row ∧ rec.nextRunUtc = row.nextRunUtc)
    ∧ (list_reminders rows none).length = rows.length
    ∧ (∀ rec ∈ list_reminders rows none, ∃ row ∈ rows,
        rec.userId = row.userId ∧ rec.id = row.id
        ∧ rec.channelId = row.channelId ∧ rec.dm = (row.dm != 0)
        ∧ rec.text = row.text ∧ rec.dueUtc = row.dueUtc) := by
  refine ⟨by simp [list_weather_subs], ?_, by simp [list_reminders], ?_⟩
  · intro rec hrec
    simp only [list_weather_subs, List.mem_map] at hrec
    obtain ⟨row, hrow, hEq⟩ := hrec
    exact ⟨row, hrow, by simp [← hEq], by simp [← hEq]⟩
  · intro rec hrec
    simp only [list_reminders, List.mem_map] at hrec
    obtain ⟨row, hrow, hEq⟩ := hrec
    exact ⟨row, hrow, by simp [← hEq], by simp [← hEq], by simp [← hEq],
      by simp [← hEq], by simp [← hEq], by simp [← hEq]⟩

/-- C9 amended witness: on a one-row dataset with a null `next_run_utc`
the list operation returns exactly one record. -/
theorem list_ops_total_passthrough_witness :
    (list_weather_subs
        [{ userId := 1, id := 1, zip := "60601", cadence := "daily", hh := 8,
           mi := 0, weeklyDays := 7, nextRunUtc := none }] none).length = 1 :=
  (list_ops_total_passthrough
      [{ userId := 1, id := 1, zip := "60601", cadence := "daily", hh := 8,
         mi := 0, weeklyDays := 7, nextRunUtc := none }] []).1

/-- C8: the migration is idempotent — a second run of
`_maybe_migrate_from_json` after any first run leaves the destination
database (hence every table's record count) unchanged, because a
completed first run renames the legacy file away (`jsonExists = false`)
and a run that finds the file absent, unparseable, or the flagship
`wallets` table already populated changes nothing. -/
theorem migrate_idempotent (s : MigState) :
    maybeMigrateFromJson (maybeMigrateFromJson s) = maybeMigrateFromJson s
    ∧ (s.jsonExists = false → maybeMigrateFromJson s = s)
    ∧ (0 < s.db.wallets.length → maybeMigrateFromJson s = s) := by
  unfold maybeMigrateFromJson
  split_ifs <;> simp_all

/-- C8 witness: a state whose legacy file was already renamed away is
left untouched. -/
theorem migrate_idempotent_witness :
    maybeMigrateFromJson
        { jsonExists := false, jsonParses := true,
          jsonData :=
            { wallets := [], inventory := [], daily := [], work := [],
              streaks := [], stats := [], achievements := [], autodelete := [],
              notes := [], pins := [], polls := [], reminders := [],
              adminAllowlist := [], weatherZips := [], weatherSubs := [],
              triviaToken := none },
          db :=
            { wallets := [], inventory := [], daily := [], work := [],
              streaks := [], stats := [], achievements := [], autodelete := [],
              notes := [], pins := [], polls := [], reminders := [],
              adminAllowlist := [], weatherZips := [], weatherSubs := [],
              kv := [] } }
      = { jsonExists := false, jsonParses := true,
          jsonData :=
            { wallets := [], inventory := [], daily := [], work := [],
              streaks := [], stats := [], achievements := [], autodelete := [],
              notes := [], pins := [], polls := [], reminders := [],
              adminAllowlist := [], weatherZips := [], weatherSubs := [],
              triviaToken := none },
          db :=
            { wallets := [], inventory := [], daily := [], work := [],
              streaks := [], stats := [], achievements := [], autodelete := [],
              notes := [], pins := [], polls := [], reminders := [],
              adminAllowlist := [], weatherZips := [], weatherSubs := [],
              kv := [] } } :=
  (migrate_idempotent _).2.1 rfl

/-- The scan loop invariant: on a strictly ascending list, starting at
`i`, the loop returns the least integer `≥ i` that is not in the list. -/
theorem lowestFreeLoop_spec (used : List Int) :
    ∀ i : Int, used.Pairwise (· < ·) →
      i ≤ lowestFreeLoop used i
      ∧ lowestFreeLoop used i ∉ used
      ∧ ∀ k : Int, i ≤ k → k < lowestFreeLoop used i → k ∈ used := by
  induction used with
  | nil =>
      intro i _
      refine ⟨le_refl i, by simp [lowestFreeLoop], ?_⟩
      intro k hk hk'
      simp only [lowestFreeLoop] at hk'
      omega
  | cons u rest ih =>
      intro i hp
      have hrest : rest.Pairwise (· < ·) := hp.of_cons
      have hhead : ∀ b ∈ rest, u < b := fun b hb => List.rel_of_pairwise_cons hp hb
      by_cases h1 : u = i
      · obtain ⟨ha, hb, hc⟩ := ih (i + 1) hrest
        have hres : lowestFreeLoop (u :: rest) i = lowestFreeLoop rest (i + 1) := by
          simp [lowestFreeLoop, h1]
        refine ⟨by omega, ?_, ?_⟩
        · rw [hres]
          intro hmem
          rcases List.mem_cons.mp hmem with h | h
          · omega
          · exact hb h
        · intro k hik hk
          rw [hres] at hk
          by_cases hki : k = i
          · exact List.mem_cons.mpr (Or.inl (by omega))
          · exact List.mem_cons.mpr (Or.inr (hc k (by omega) hk))
      · by_cases h2 : i < u
        · have hres : lowestFreeLoop (u :: rest) i = i := by
            simp [lowestFreeLoop, h1, h2]
          refine ⟨by omega, ?_, ?_⟩
          · rw [hres]
            intro hmem
            rcases List.mem_cons.mp hmem with h | h
            · omega
            · have := hhead i h
              omega
          · intro k hik hk
            rw [hres] at hk
            omega
        · have hu : u < i := by omega
          have hres : lowestFreeLoop (u :: rest) i = lowestFreeLoop rest i := by
            simp [lowestFreeLoop, h1, h2]
          obtain ⟨ha, hb, hc⟩ := ih i hrest
          refine ⟨by omega, ?_, ?_⟩
          · rw [hres]
            intro hmem
            rcases List.mem_cons.mp hmem with h | h
            · omega
            · exact hb h
          · intro k hik hk
            rw [hres] at hk
            exact List.mem_cons.mpr (Or.inr (hc k hik hk))

/-- Sorting a duplicate-free integer list ascendingly yields a strictly
ascending list. -/
theorem insertionSort_pairwise_lt (l : List Int) (hnd : l.Nodup) :
    (List.insertionSort (· ≤ ·) l).Pairwise (· < ·) := by
  have hs : (List.insertionSort (· ≤ ·) l).Pairwise (· ≤ ·) :=
    List.sorted_insertionSort (· ≤ ·) l
  have hnd' : (List.insertionSort (· ≤ ·) l).Nodup :=
    (List.perm_insertionSort (· ≤ ·) l).nodup_iff.mpr hnd
  exact (hs.and hnd').imp (fun h => lt_of_le_of_ne h.1 h.2)

/-- C1: for every owner and record kind, the ID allocator returns the
least positive integer not currently used as an id by that owner's live
rows, so the id assigned by `add_note`, `add_reminder` and
`add_weather_sub` never equals the id of a still-live record of the same
owner and kind.  The `Nodup` hypothesis is the `PRIMARY KEY(user_id, id)`
constraint; the projection hypotheses identify each table's key set with
the abstract row set. -/
theorem lowest_free_id_spec
    (rows : List (Int × Int)) (uid : Int)
    (hnd : ((rows.filter (fun r => r.1 == uid)).map (·.2)).Nodup)
    (notes : List NoteRow) (text : String)
    (hN : notes.map (fun r => (r.userId, r.id)) = rows)
    (rems : List Reminder) (cid : Option Int) (dm : Bool) (rtext : String)
    (due : Int) (hR : rems.map (fun r => (r.userId, r.id)) = rows)
    (subs : List WSubRow) (z cadt : String) (hh mi wd : Int)
    (nxt : Option String)
    (hS : subs.map (fun r => (r.userId, r.id)) = rows) :
    (1 ≤ lowest_free_id_for_user rows uid
      ∧ (∀ r ∈ rows, r.1 = uid → r.2 ≠ lowest_free_id_for_user rows uid)
      ∧ (∀ k : Int, 1 ≤ k → k < lowest_free_id_for_user rows uid →
          ∃ r ∈ rows, r.1 = uid ∧ r.2 = k))
    ∧ (∀ r ∈ notes, r.userId = uid → r.id ≠ (add_note notes uid text).2)
    ∧ (∀ r ∈ rems, r.userId = uid →
        r.id ≠ (add_reminder rems uid cid dm rtext due).2)
    ∧ (∀ r ∈ subs, r.userId = uid →
        r.id ≠ (add_weather_sub subs uid z cadt hh mi wd nxt).2) := by
  have hperm :=
    List.perm_insertionSort (· ≤ ·) ((rows.filter (fun r => r.1 == uid)).map (·.2))
  obtain ⟨ha, hb, hc⟩ :=
    lowestFreeLoop_spec
      (List.insertionSort (· ≤ ·) ((rows.filter (fun r => r.1 == uid)).map (·.2)))
      1 (insertionSort_pairwise_lt _ hnd)
  have hid : lowest_free_id_for_user rows uid
      = lowestFreeLoop
          (List.insertionSort (· ≤ ·)
            ((rows.filter (fun r => r.1 == uid)).map (·.2))) 1 := rfl
  have hcore : 1 ≤ lowest_free_id_for_user rows uid
      ∧ (∀ r ∈ rows, r.1 = uid → r.2 ≠ lowest_free_id_for_user rows uid)
      ∧ (∀ k : Int, 1 ≤ k → k < lowest_free_id_for_user rows uid →
          ∃ r ∈ rows, r.1 = uid ∧ r.2 = k) := by
    refine ⟨by omega, ?_, ?_⟩
    · intro r hr hruid heq
      apply hb
      rw [hperm.mem_iff]
      rw [hid] at heq
      rw [← heq]
      exact List.mem_map.mpr
        ⟨r, List.mem_filter.mpr ⟨hr, by simp [hruid]⟩, rfl⟩
    · intro k hk1 hk2
      rw [hid] at hk2
      have := hperm.mem_iff.mp (hc k hk1 hk2)
      obtain ⟨r, hrf, hrk⟩ := List.mem_map.mp this
      have hrr := List.mem_filter.mp hrf
      exact ⟨r, hrr.1, by simpa using hrr.2, hrk⟩
  refine ⟨hcore, ?_, ?_, ?_⟩
  · intro r hr hruid
    have : (add_note notes uid text).2 = lowest_free_id_for_user rows uid := by
      simp [add_note, hN]
    rw [this]
    exact hcore.2.1 (r.userId, r.id) (hN ▸ List.mem_map.mpr ⟨r, hr, rfl⟩) hruid
  · intro r hr hruid
    have : (add_reminder rems uid cid dm rtext due).2
        = lowest_free_id_for_user rows uid := by
      simp [add_reminder, hR]
    rw [this]
    exact hcore.2.1 (r.userId, r.id) (hR ▸ List.mem_map.mpr ⟨r, hr, rfl⟩) hruid
  · intro r hr hruid
    have : (add_weather_sub subs uid z cadt hh mi wd nxt).2
        = lowest_free_id_for_user rows uid := by
      simp [add_weather_sub, hS]
    rw [this]
    exact hcore.2.1 (r.userId, r.id) (hS ▸ List.mem_map.mpr ⟨r, hr, rfl⟩) hruid

/-- C1 witness: with owner 1 holding ids 1 and 2 and owner 2 holding
id 1, the allocator hands owner 1 an id that is at least 1. -/
theorem lowest_free_id_spec_witness :
    1 ≤ lowest_free_id_for_user [((1 : Int), (1 : Int)), (1, 2), (2, 1)] 1 :=
  (lowest_free_id_spec [(1, 1), (1, 2), (2, 1)] 1 (by decide)
      [{ userId := 1, id := 1, text := "a" }, { userId := 1, id := 2, text := "b" },
       { userId := 2, id := 1, text := "c" }] "t" (by decide)
      [{ userId := 1, id := 1, channelId := none, dm := false, text := "x", dueUtc := 0 },
       { userId := 1, id := 2, channelId := none, dm := false, text := "y", dueUtc := 0 },
       { userId := 2, id := 1, channelId := none, dm := false, text := "z", dueUtc := 0 }]
      none false "m" 0 (by decide)
      [{ userId := 1, id := 1, zip := "60601", cadence := "daily", hh := 8, mi := 0,
         weeklyDays := 7, nextRunUtc := none },
       { userId := 1, id := 2, zip := "60601", cadence := "daily", hh := 8, mi := 0,
         weeklyDays := 7, nextRunUtc := none },
       { userId := 2, id := 1, zip := "60601", cadence := "daily", hh := 8, mi := 0,
         weeklyDays := 7, nextRunUtc := none }]
      "60601" "daily" 8 0 7 none (by decide)).1.1

/-- A reminder absent from the evolving store stays absent: each fold step
either leaves the store alone or filters rows out of it. -/
theorem remTick_fst_not_mem (now : Int) (r : Reminder) :
    ∀ (todo : List Reminder) (acc : List Reminder × List Reminder),
      r ∉ acc.1 → r ∉ (todo.foldl (remTickStep now) acc).1 := by
  intro todo
  induction todo with
  | nil => intro acc h; exact h
  | cons x rest ih =>
      intro acc h
      simp only [List.foldl_cons]
      apply ih
      have hstep : (remTickStep now acc x).1 = acc.1
          ∨ (remTickStep now acc x).1
            = acc.1.filter (fun y => !(y.userId == x.userId && y.id == x.id)) := by
        by_cases hx : x.dueUtc ≤ now <;>
          simp [remTickStep, cancel_reminder, hx]
      rcases hstep with he | he <;> rw [he]
      · exact h
      · exact fun hmem => h (List.mem_of_mem_filter hmem)

/-- A due reminder in the snapshot is gone from the store after the fold:
its own iteration deletes it by key and later iterations never re-add. -/
theorem remTick_removes (now : Int) (r : Reminder) (hdue : r.dueUtc ≤ now) :
    ∀ (todo : List Reminder) (acc : List Reminder × List Reminder),
      r ∈ todo → r ∉ (todo.foldl (remTickStep now) acc).1 := by
  intro todo
  induction todo with
  | nil => intro acc h; exact absurd h (List.not_mem_nil r)
  | cons x rest ih =>
      intro acc hmem
      simp only [List.foldl_cons]
      rcases List.mem_cons.mp hmem with heq | hmem'
      · subst heq
        have hstep : (remTickStep now acc r).1
            = acc.1.filter (fun y => !(y.userId == r.userId && y.id == r.id)) := by
          simp [remTickStep, hdue, cancel_reminder]
        apply remTick_fst_not_mem
        rw [hstep]
        intro hmem''
        have h := (List.mem_filter.mp hmem'').2
        simp at h
      · exact ih (remTickStep now acc x) hmem'

/-- The dispatched-attempts component of the fold is the due filter of the
snapshot. -/
theorem remTick_snd (now : Int) :
    ∀ (todo : List Reminder) (acc : List Reminder × List Reminder),
      (todo.foldl (remTickStep now) acc).2
        = acc.2 ++ todo.filter (fun y => decide (y.dueUtc ≤ now)) := by
  intro todo
  induction todo with
  | nil => intro acc; simp
  | cons x rest ih =>
      intro acc
      simp only [List.foldl_cons]
      rw [ih]
      by_cases hx : x.dueUtc ≤ now <;>
        simp [remTickStep, hx, List.filter_cons]

/-- C6: every reminder due at a `reminders_scheduler` tick is gone from
the store after the tick, whatever each delivery attempt's outcome, and
its delivery is attempted exactly once during the tick.  The `Nodup`
hypothesis is the `PRIMARY KEY(user_id, id)` constraint. -/
theorem reminders_tick_consumes (now : Int) (store : List Reminder)
    (hnd : (store.map (fun r => (r.userId, r.id))).Nodup)
    (r : Reminder) (hr : r ∈ store) (hdue : r.dueUtc ≤ now) :
    r ∉ (remindersTick now store).1
    ∧ (remindersTick now store).2.count r = 1 := by
  constructor
  · exact remTick_removes now r hdue store (store, []) hr
  · have hsnd := remTick_snd now store (store, [])
    unfold remindersTick
    rw [hsnd]
    simp only [List.nil_append]
    have hnodup : store.Nodup := hnd.of_map
    have hfil : (store.filter (fun y => decide (y.dueUtc ≤ now))).Nodup :=
      hnodup.filter _
    have hmem : r ∈ store.filter (fun y => decide (y.dueUtc ≤ now)) :=
      List.mem_filter.mpr ⟨hr, by simpa using hdue⟩
    have h1 := List.nodup_iff_count_le_one.mp hfil r
    have h2 : 0 < (store.filter (fun y => decide (y.dueUtc ≤ now))).count r :=
      List.count_pos_iff.mpr hmem
    omega

/-- C6 witness: a single due reminder is removed by the tick. -/
theorem reminders_tick_consumes_witness :
    ({ userId := 1, id := 1, channelId := none, dm := true, text := "x",
       dueUtc := 0 } : Reminder)
      ∉ (remindersTick 5
          [{ userId := 1, id := 1, channelId := none, dm := true, text := "x",
             dueUtc := 0 }]).1 :=
  (reminders_tick_consumes 5
      [{ userId := 1, id := 1, channelId := none, dm := true, text := "x",
         dueUtc := 0 }] (by decide) _ (by simp) (by decide)).1

/-- C3 failing-input evaluation: a daily subscription due long ago
(stored `next_run_utc` 1970-01-01T00:00Z, modelled as 0) is processed by
a tick at 2025-03-10 12:00Z whose dispatch raises.  The `except` arm's
`update_weather_sub` call omits `user_id`, so nothing is written: the
persisted `next_run_utc` is still the old past value, not strictly later
than the tick's observed now as the claim requires — and the
`update_weather_sub` call itself, evaluated on the stored row, returns
false and leaves the table untouched. -/
theorem weather_fallback_no_write :
    (weatherTickSub (fun _ => -5 * 3600) (mkDT 2025 3 10 12 0)
        (mkDT 2025 3 10 7 0) false
        { userId := 1, id := 1, zip := "60601", cadence := "daily", hh := 8,
          mi := 0, weeklyDays := 7, nextRunUtc := 0 }).nextRunUtc = 0
    ∧ ¬ (mkDT 2025 3 10 12 0
          < (weatherTickSub (fun _ => -5 * 3600) (mkDT 2025 3 10 12 0)
              (mkDT 2025 3 10 7 0) false
              { userId := 1, id := 1, zip := "60601", cadence := "daily",
                hh := 8, mi := 0, weeklyDays := 7,
                nextRunUtc := 0 }).nextRunUtc)
    ∧ update_weather_sub
        [{ userId := 1, id := 1, zip := "60601", cadence := "daily", hh := 8,
           mi := 0, weeklyDays := 7,
           nextRunUtc := some "1970-01-01T00:00:00+00:00" }]
        1 none (some "2025-03-10T12:05:00+00:00")
      = ([{ userId := 1, id := 1, zip := "60601", cadence := "daily", hh := 8,
            mi := 0, weeklyDays := 7,
            nextRunUtc := some "1970-01-01T00:00:00+00:00" }], false) := by
  decide

end Utilabot
